import Mathlib

/-!
# The declared interface of `mc-driver.h`

`go/internal/multipeer-connectivity-transport/driver/mc-driver.h` has no function bodies: it
is one `#import` directive followed by seven function prototypes.  The embedding below is the
abstract syntax of those prototypes, one `Decl` per source line, in source order.  `Decl.render`
prints a prototype back in the layout the header uses, and `mcDriverDecls_render` checks that
the embedded declarations print to the text of lines 11-17 of the header, character for
character.
-/

namespace McDriver

/-- The type names that occur in the prototypes of `mc-driver.h`. -/
inductive BaseType where
  | void
  | int
  | char
  | NSString
  | NSData
  deriving DecidableEq, Repr

/-- A type as written in the header: a type name and whether it is followed by `*`. -/
structure CType where
  base : BaseType
  pointer : Bool
  deriving DecidableEq, Repr

/-- One named parameter of a prototype, such as `char *remotePID`. -/
structure Param where
  type : CType
  name : String
  deriving DecidableEq, Repr

/-- One function prototype.  An empty `params` stands for the parameter list `(void)`. -/
structure Decl where
  ret : CType
  name : String
  params : List Param
  deriving DecidableEq, Repr

/-- The type `void`. -/
def tVoid : CType := ⟨BaseType.void, false⟩

/-- The type `int`. -/
def tInt : CType := ⟨BaseType.int, false⟩

/-- The type `char *`. -/
def tCharPtr : CType := ⟨BaseType.char, true⟩

/-- The type `void *`. -/
def tVoidPtr : CType := ⟨BaseType.void, true⟩

/-- The type `NSString *`. -/
def tNSStringPtr : CType := ⟨BaseType.NSString, true⟩

/-- The type `NSData *`. -/
def tNSDataPtr : CType := ⟨BaseType.NSData, true⟩

/-- Line 9 of the header: the framework header it pulls in. -/
def mcDriverImports : List String := ["Foundation/Foundation.h"]

/-- Line 11: `void StartMCDriver(char *localPId);` -/
def StartMCDriver : Decl := ⟨tVoid, "StartMCDriver", [⟨tCharPtr, "localPId"⟩]⟩

/-- Line 12: `void StopMCDriver(void);` -/
def StopMCDriver : Decl := ⟨tVoid, "StopMCDriver", []⟩

/-- Line 13: `int SendToPeer(char *remotePID, void *payload, int length);` -/
def SendToPeer : Decl :=
  ⟨tInt, "SendToPeer", [⟨tCharPtr, "remotePID"⟩, ⟨tVoidPtr, "payload"⟩, ⟨tInt, "length"⟩]⟩

/-- Line 14: `int DialPeer(char *remotePID);` -/
def DialPeer : Decl := ⟨tInt, "DialPeer", [⟨tCharPtr, "remotePID"⟩]⟩

/-- Line 15: `void CloseConnWithPeer(char *remotePID);` -/
def CloseConnWithPeer : Decl := ⟨tVoid, "CloseConnWithPeer", [⟨tCharPtr, "remotePID"⟩]⟩

/-- Line 16: `int BridgeHandleFoundPeer(NSString *remotePID);` -/
def BridgeHandleFoundPeer : Decl :=
  ⟨tInt, "BridgeHandleFoundPeer", [⟨tNSStringPtr, "remotePID"⟩]⟩

/-- Line 17: `void BridgeReceiveFromPeer(NSString *remotePID, NSData *payload);` -/
def BridgeReceiveFromPeer : Decl :=
  ⟨tVoid, "BridgeReceiveFromPeer", [⟨tNSStringPtr, "remotePID"⟩, ⟨tNSDataPtr, "payload"⟩]⟩

/-- The prototypes of `mc-driver.h`, lines 11 to 17, in source order. -/
def mcDriverDecls : List Decl :=
  [StartMCDriver, StopMCDriver, SendToPeer, DialPeer, CloseConnWithPeer,
   BridgeHandleFoundPeer, BridgeReceiveFromPeer]

/-! ## Printing the declarations back as header text -/

/-- The spelling of a type name. -/
def BaseType.render : BaseType → List Char
  | .void => "void".toList
  | .int => "int".toList
  | .char => "char".toList
  | .NSString => "NSString".toList
  | .NSData => "NSData".toList

/-- A parameter as the header lays it out: the `*` of a pointer is attached to the name. -/
def Param.render (p : Param) : List Char :=
  p.type.base.render ++ (if p.type.pointer then " *".toList else " ".toList) ++ p.name.toList

/-- A return type as the header lays it out, with the blank that separates it from the name. -/
def CType.renderRet (t : CType) : List Char :=
  t.base.render ++ (if t.pointer then " *".toList else " ".toList)

/-- A parameter list: `void` when empty, the parameters separated by `, ` otherwise. -/
def renderParams : List Param → List Char
  | [] => "void".toList
  | [p] => p.render
  | p :: q :: ps => p.render ++ ", ".toList ++ renderParams (q :: ps)

/-- A whole prototype line. -/
def Decl.render (d : Decl) : String :=
  String.mk (d.ret.renderRet ++ d.name.toList ++ "(".toList ++ renderParams d.params
    ++ ");".toList)

/-- An import directive line. -/
def renderImport (h : String) : String :=
  String.mk ("#import <".toList ++ h.toList ++ ">".toList)

/-! ## The notions the interface properties are phrased in -/

/-- The two callbacks of the header are the functions whose name starts with `Bridge`. -/
def Decl.isBridge (d : Decl) : Bool := "Bridge".toList.isPrefixOf d.name.toList

/-- The parameter names the header gives to peer identifiers: `localPId` for the local peer
(line 11) and `remotePID` for a remote peer (lines 13 to 17). -/
def peerIdParamNames : List String := ["localPId", "remotePID"]

/-- A parameter is a peer identifier when the header names it as one. -/
def Param.isPeerId (p : Param) : Bool := decide (p.name ∈ peerIdParamNames)

/-- The first parameter of a prototype, if it has one. -/
def Decl.firstParam (d : Decl) : Option Param := d.params.head?

/-- The prototype takes a peer identifier of type `t` as its first parameter. -/
def Decl.firstIsPeerIdOf (d : Decl) (t : CType) : Bool :=
  match d.firstParam with
  | some p => p.isPeerId && decide (p.type = t)
  | none => false

/-- The prototypes declared under a given function name. -/
def declsNamed (ds : List Decl) (n : String) : List Decl := ds.filter fun d => d.name == n

/-- The types of a prototype: its return type and its parameter types in order. -/
def Decl.signature (d : Decl) : CType × List CType := (d.ret, d.params.map Param.type)

/-- The number of parameters of a prototype. -/
def Decl.arity (d : Decl) : Nat := d.params.length

/-- The names of the functions among `ds` that return `t`. -/
def namesReturning (ds : List Decl) (t : CType) : List String :=
  (ds.filter fun d => decide (d.ret = t)).map Decl.name

/-! ## The embedding agrees with the header text -/

/-- The embedded declarations print to lines 11-17 of `mc-driver.h`. -/
theorem mcDriverDecls_render :
    mcDriverDecls.map Decl.render =
      ["void StartMCDriver(char *localPId);",
       "void StopMCDriver(void);",
       "int SendToPeer(char *remotePID, void *payload, int length);",
       "int DialPeer(char *remotePID);",
       "void CloseConnWithPeer(char *remotePID);",
       "int BridgeHandleFoundPeer(NSString *remotePID);",
       "void BridgeReceiveFromPeer(NSString *remotePID, NSData *payload);"] := by
  decide

/-- The embedded import prints to line 9 of `mc-driver.h`. -/
theorem mcDriverImports_render :
    mcDriverImports.map renderImport = ["#import <Foundation/Foundation.h>"] := by
  decide

/-! ## The interface properties -/

/-- C1: the header declares exactly seven functions, their names are pairwise distinct, and
the names are exactly `StartMCDriver`, `StopMCDriver`, `SendToPeer`, `DialPeer`,
`CloseConnWithPeer`, `BridgeHandleFoundPeer` and `BridgeReceiveFromPeer`: a name is declared by
the header if and only if it is one of these seven. -/
theorem mcDriver_declares_exactly_seven_functions :
    mcDriverDecls.length = 7 ∧
    (mcDriverDecls.map Decl.name).Nodup ∧
    mcDriverDecls.map Decl.name =
      ["StartMCDriver", "StopMCDriver", "SendToPeer", "DialPeer", "CloseConnWithPeer",
       "BridgeHandleFoundPeer", "BridgeReceiveFromPeer"] ∧
    ∀ n : String, (∃ d ∈ mcDriverDecls, d.name = n) ↔
      n ∈ ["StartMCDriver", "StopMCDriver", "SendToPeer", "DialPeer", "CloseConnWithPeer",
           "BridgeHandleFoundPeer", "BridgeReceiveFromPeer"] := by
  have hnames : mcDriverDecls.map Decl.name =
      ["StartMCDriver", "StopMCDriver", "SendToPeer", "DialPeer", "CloseConnWithPeer",
       "BridgeHandleFoundPeer", "BridgeReceiveFromPeer"] := by decide
  refine ⟨by decide, by decide, hnames, ?_⟩
  intro n
  rw [← hnames, List.mem_map]

/-- C2: `SendToPeer` and `DialPeer` are each declared once and both return `int`; `SendToPeer`
has exactly three parameters, `char *remotePID`, `void *payload` and `int length`, and
`DialPeer` exactly one, `char *remotePID`, which the header names as a peer identifier. -/
theorem sendToPeer_dialPeer_signatures :
    (declsNamed mcDriverDecls "SendToPeer").map Decl.signature =
      [(tInt, [tCharPtr, tVoidPtr, tInt])] ∧
    (declsNamed mcDriverDecls "SendToPeer").map Decl.arity = [3] ∧
    (declsNamed mcDriverDecls "SendToPeer").map Decl.params =
      [[⟨⟨BaseType.char, true⟩, "remotePID"⟩, ⟨⟨BaseType.void, true⟩, "payload"⟩,
        ⟨⟨BaseType.int, false⟩, "length"⟩]] ∧
    (declsNamed mcDriverDecls "DialPeer").map Decl.signature = [(tInt, [tCharPtr])] ∧
    (declsNamed mcDriverDecls "DialPeer").map Decl.arity = [1] ∧
    (declsNamed mcDriverDecls "DialPeer").map Decl.params =
      [[⟨⟨BaseType.char, true⟩, "remotePID"⟩]] ∧
    (declsNamed mcDriverDecls "SendToPeer").map (Decl.firstIsPeerIdOf · tCharPtr) = [true] ∧
    (declsNamed mcDriverDecls "DialPeer").map (Decl.firstIsPeerIdOf · tCharPtr) = [true] := by
  decide

/-- C4 as stated fails on a count: the non-`Bridge` functions that take a `char *` peer
identifier as their first parameter are four (`StartMCDriver`, `SendToPeer`, `DialPeer`,
`CloseConnWithPeer`), not five.  The fifth non-`Bridge` function is `StopMCDriver`, declared
`void StopMCDriver(void)`, which has no parameter at all. -/
theorem non_bridge_peer_id_functions_are_four_not_five :
    (mcDriverDecls.filter fun d => !d.isBridge && d.firstIsPeerIdOf tCharPtr).map Decl.name =
      ["StartMCDriver", "SendToPeer", "DialPeer", "CloseConnWithPeer"] ∧
    (mcDriverDecls.filter fun d => !d.isBridge && d.firstIsPeerIdOf tCharPtr).length = 4 ∧
    ¬ (mcDriverDecls.filter fun d => !d.isBridge && d.firstIsPeerIdOf tCharPtr).length = 5 ∧
    ¬ (mcDriverDecls.filter fun d => !d.isBridge && d.firstParam.isSome).length = 5 ∧
    StopMCDriver ∈ mcDriverDecls ∧
    StopMCDriver.isBridge = false ∧
    StopMCDriver.firstParam = none ∧
    StopMCDriver.firstIsPeerIdOf tCharPtr = false := by
  decide

/-- C4, amended: exactly three of the seven declared functions return `int` (`SendToPeer`,
`DialPeer`, `BridgeHandleFoundPeer`) and the other four return `void` (`StartMCDriver`,
`StopMCDriver`, `CloseConnWithPeer`, `BridgeReceiveFromPeer`); every declared function other
than `StopMCDriver` takes a peer identifier as its first parameter, of type `char *` for the
four non-`Bridge` functions that have one (`StartMCDriver`, `SendToPeer`, `DialPeer`,
`CloseConnWithPeer`) and of type `NSString *` for the two `Bridge` callbacks.  `StopMCDriver`,
the excepted function, is the fifth non-`Bridge` function and has no parameter. -/
theorem return_types_and_peer_id_first_parameter :
    namesReturning mcDriverDecls tInt = ["SendToPeer", "DialPeer", "BridgeHandleFoundPeer"] ∧
    (namesReturning mcDriverDecls tInt).length = 3 ∧
    namesReturning mcDriverDecls tVoid =
      ["StartMCDriver", "StopMCDriver", "CloseConnWithPeer", "BridgeReceiveFromPeer"] ∧
    (namesReturning mcDriverDecls tVoid).length = 4 ∧
    (∀ d ∈ mcDriverDecls, d.name ≠ "StopMCDriver" →
      d.firstIsPeerIdOf (if d.isBridge then tNSStringPtr else tCharPtr) = true) ∧
    (mcDriverDecls.filter fun d => !d.isBridge).map Decl.name =
      ["StartMCDriver", "StopMCDriver", "SendToPeer", "DialPeer", "CloseConnWithPeer"] ∧
    (mcDriverDecls.filter Decl.isBridge).map Decl.name =
      ["BridgeHandleFoundPeer", "BridgeReceiveFromPeer"] ∧
    (declsNamed mcDriverDecls "StopMCDriver").map Decl.firstParam = [none] ∧
    (mcDriverDecls.filter fun d => !d.isBridge && d.firstParam.isSome).map Decl.name =
      ["StartMCDriver", "SendToPeer", "DialPeer", "CloseConnWithPeer"] ∧
    (mcDriverDecls.filter fun d => !d.isBridge && d.firstIsPeerIdOf tCharPtr).map Decl.name =
      ["StartMCDriver", "SendToPeer", "DialPeer", "CloseConnWithPeer"] ∧
    (mcDriverDecls.filter fun d => !d.isBridge && d.firstIsPeerIdOf tCharPtr).length = 4 ∧
    (mcDriverDecls.filter fun d => d.isBridge && d.firstIsPeerIdOf tNSStringPtr).map Decl.name =
      ["BridgeHandleFoundPeer", "BridgeReceiveFromPeer"] ∧
    (mcDriverDecls.filter fun d => d.isBridge && d.firstIsPeerIdOf tNSStringPtr).length = 2 := by
  decide

/-- The amended C4 at `CloseConnWithPeer` (first parameter a `char *` peer identifier) and at
`BridgeHandleFoundPeer` (first parameter an `NSString *` peer identifier). -/
theorem return_types_and_peer_id_first_parameter_witness :
    (CloseConnWithPeer.name ≠ "StopMCDriver" ∧
      CloseConnWithPeer.firstIsPeerIdOf tCharPtr = true) ∧
    (BridgeHandleFoundPeer.name ≠ "StopMCDriver" ∧
      BridgeHandleFoundPeer.firstIsPeerIdOf tNSStringPtr = true) :=
  ⟨⟨by decide, return_types_and_peer_id_first_parameter.2.2.2.2.1 CloseConnWithPeer
      (by decide) (by decide)⟩,
   ⟨by decide, return_types_and_peer_id_first_parameter.2.2.2.2.1 BridgeHandleFoundPeer
      (by decide) (by decide)⟩⟩

end McDriver
